import Mathlib

/-!
Shallow embedding of the videobgremover composition compiler
(`src/videobgremover/media/composition.py`, `foregrounds.py`, `backgrounds.py`,
`encoders.py`, `video_source.py`) and proofs about the claims of the
natural-language specification.

Modelling conventions:
* Python floats are modelled as rationals (ℚ); `int(x)` is truncation toward
  zero (`pyint`); `str(x)` on a numeric value is modelled by the fixed
  injective rendering `pystr` / `toString` (the exact decimal text of a float
  is irrelevant to every claim below, which are about structure, presence and
  equality of argument-vector entries).
* Python truthiness is translated explicitly at every use site: `0`, `0.0`,
  `None`, `""`, `[]` are falsy, everything else truthy.
* Fallible code (a `raise`) is modelled with `Option`, `none` being the raise.
* Apostrophe characters inside emitted FFmpeg expressions are produced through
  `sq` (`Char.ofNat 39`).
-/

namespace VBR

/-- The apostrophe character, as a string. -/
def sq : String := String.mk [Char.ofNat 39]

/-- Python `int(x)` on a float: truncation toward zero. -/
def pyint (q : ℚ) : ℤ := if 0 ≤ q then ⌊q⌋ else -⌊-q⌋

/-- Fixed rendering of a Python float into a string (see module comment). -/
def pystr (q : ℚ) : String :=
  if q.den = 1 then toString q.num else toString q.num ++ "." ++ toString q.den

/-- Python `f"{dx:+d}"`: signed rendering of an integer. -/
def pySigned (i : ℤ) : String :=
  if 0 ≤ i then "+" ++ toString i else toString i

/-- `String.intercalate`, re-implemented structurally so that it reduces in the kernel. -/
def joinSep (s : String) : List String → String
  | [] => ""
  | x :: xs => xs.foldl (fun acc y => acc ++ s ++ y) x

/-- Concatenation of a list of strings (Python `''.join`). -/
def joinAll (l : List String) : String := l.foldl (· ++ ·) ""

/-- Python `str.endswith`, on the underlying character lists. -/
def strEndsWith (s suffix : String) : Bool := List.isSuffixOf suffix.data s.data

/-- Split a character list at a separator character (helper for `getFileExtension`). -/
def splitOnChar (c : Char) : List Char → List (List Char)
  | [] => [[]]
  | x :: xs =>
    let rest := splitOnChar c xs
    if x = c then [] :: rest
    else
      match rest with
      | [] => [[x]]
      | r :: rs => (x :: r) :: rs

/-- Python dict lookup (`m[k]`), `none` when the key is absent. -/
def dictGet (m : List (String × ℕ)) (k : String) : Option ℕ :=
  (m.find? (fun p => p.1 = k)).map (·.2)

/-- Python dict lookup with a default. -/
def dictGetD (m : List (String × ℕ)) (k : String) (d : ℕ) : ℕ :=
  (dictGet m k).getD d

/-- Python dict insertion/overwrite (`m[k] = v`), preserving insertion order. -/
def dictInsert (m : List (String × ℕ)) (k : String) (v : ℕ) : List (String × ℕ) :=
  if m.any (fun p => p.1 = k) then m.map (fun p => if p.1 = k then (k, v) else p)
  else m ++ [(k, v)]

/-- Python `max(input_map.values())` (the map always contains `"background"`). -/
def maxValues (m : List (String × ℕ)) : ℕ := m.foldl (fun a p => max a p.2) 0

/-- Python membership test `k in input_map`. -/
def dictHas (m : List (String × ℕ)) (k : String) : Bool := m.any (fun p => p.1 = k)

/-! ## Data model -/

/-- `core/types.py` `Anchor`. -/
inductive Anchor
  | center | topLeft | topCenter | topRight | centerLeft | centerRight
  | bottomLeft | bottomCenter | bottomRight
deriving DecidableEq, Repr

/-- `core/types.py` `SizeMode`. -/
inductive SizeMode
  | contain | cover | px | canvasPercent | scale | fitWidth | fitHeight
deriving DecidableEq, Repr

/-- `foregrounds.py` `Foreground.format`. -/
inductive FgFormat
  | webm_vp9 | mov_prores | png_sequence | pro_bundle | stacked_video
deriving DecidableEq, Repr

/-- The slice of `VideoSource._video_info` consumed by the compiler:
`duration` (a number or absent), the `codec_type` of each probed stream, and
the `needs_vp9_decoder` flag. -/
structure VideoInfo where
  duration : Option ℚ
  streams : List String
  needs_vp9_decoder : Bool
deriving DecidableEq, Repr

/-- `context.py` `MediaContext`: the fields read during argv construction
(`ctx.ffmpeg` and the cached result of `ctx.check_webm_support()`). -/
structure MediaCtx where
  ffmpeg : String
  webm_support : Bool
deriving DecidableEq, Repr

/-- The variant payload of `backgrounds.py`: Color | Image | Video | Empty. -/
inductive BgKind
  | color (color : String)
  | image (source : String)
  | video (source : String) (source_trim : Option (ℚ × Option ℚ))
  | empty
deriving DecidableEq, Repr

/-- A background (`backgrounds.py` `BaseBackground` and subclasses); the
probed `_video_info` private attribute is carried alongside the declared
fields, mirroring pydantic's separation of the two. -/
structure Background where
  width : ℤ
  height : ℤ
  fps : ℚ
  audio_enabled : Bool
  audio_volume : ℚ
  kind : BgKind
  video_info : Option VideoInfo
deriving DecidableEq, Repr

/-- `foregrounds.py` `Foreground`. -/
structure Foreground where
  format : FgFormat
  primary_path : String
  mask_path : Option String
  audio_path : Option String
  source_trim : Option (ℚ × Option ℚ)
  video_info : Option VideoInfo
deriving DecidableEq, Repr

/-- The `"size"` tuple stored on a layer: `(mode, width, height, percent, scale)`. -/
structure SizeSpec where
  mode : SizeMode
  width : Option ℤ
  height : Option ℤ
  percent : Option ℚ
  scale : Option ℚ
deriving DecidableEq, Repr

/-- One layer record, as built by `Composition.add` and mutated through
`LayerHandle`. -/
structure Layer where
  name : String
  fg : Foreground
  anchor : Anchor
  dx : ℤ
  dy : ℤ
  x_expr : Option String
  y_expr : Option String
  size : SizeSpec
  opacity : ℚ
  rotate : ℚ
  crop : Option (ℤ × ℤ × ℤ × ℤ)
  comp_start : Option ℚ
  comp_end : Option ℚ
  comp_duration : Option ℚ
  source_trim : Option (ℚ × Option ℚ)
  audio_enabled : Bool
  audio_volume : ℚ
  alpha_enabled : Bool
  z : ℤ
deriving DecidableEq, Repr

/-- `composition.py` `Composition` state consumed by the compiler. -/
structure Composition where
  background : Option Background
  layers : List Layer
  canvas_hint : Option (ℤ × ℤ × ℚ)
  explicit_duration : Option ℚ
deriving DecidableEq, Repr

/-- One entry of the compiler's internal `audio_inputs` list. -/
structure AudioInput where
  input : String
  volume : ℚ
  typ : String
  layer_index : Option ℕ
deriving DecidableEq, Repr

/-- `encoders.py` `EncoderProfile.kind` (a closed `Literal` in the source). -/
inductive EncKind
  | h264 | vp9 | transparent_webm | prores_4444 | png_sequence | stacked_video
deriving DecidableEq, Repr

/-- `encoders.py` `EncoderProfile`. -/
structure EncoderProfile where
  kind : EncKind
  crf : Option ℤ
  preset : Option String
  layout : Option String
  fps : Option ℚ
deriving DecidableEq, Repr

/-- The default layer record created by `Composition.add`. -/
def mkLayer (fg : Foreground) (name : String) (z : ℤ) : Layer :=
  { name := name, fg := fg, anchor := .center, dx := 0, dy := 0,
    x_expr := none, y_expr := none,
    size := { mode := .contain, width := none, height := none, percent := none, scale := none },
    opacity := 1, rotate := 0, crop := none,
    comp_start := none, comp_end := none, comp_duration := none, source_trim := none,
    audio_enabled := true, audio_volume := 1, alpha_enabled := true, z := z }

/-! ## Background operations (`backgrounds.py`) -/

/-- `BaseBackground.controls_duration` dispatched over the variants. -/
def Background.controlsDuration (bg : Background) : Bool :=
  match bg.kind with
  | .video _ _ => true
  | _ => false

/-- `VideoBackground.get_duration`: the probed duration, `None` when the info
is absent or the stored value is falsy. -/
def Background.getDuration (bg : Background) : Option ℚ :=
  match bg.video_info with
  | some info =>
    match info.duration with
    | some d => if d ≠ 0 then some d else none
    | none => none
  | none => none

/-- `has_audio`: `False` on the base class, probed-stream check on
`VideoBackground`. -/
def Background.hasAudio (bg : Background) : Bool :=
  match bg.kind with
  | .video _ _ =>
    match bg.video_info with
    | some info => info.streams.any (fun s => s = "audio")
    | none => false
  | _ => false

/-- `VideoSource.get_decoder_args`: the VP9 decoder hint when the probed info
requires it and the runtime supports it. -/
def Background.getDecoderArgs (bg : Background) (ctx : MediaCtx) : List String :=
  if (match bg.video_info with
      | some info => info.needs_vp9_decoder
      | none => false) && ctx.webm_support
  then ["-c:v", "libvpx-vp9"] else []

/-- `get_ffmpeg_input_args` dispatched over the background variants. -/
def Background.getFfmpegInputArgs (bg : Background) (cw ch : ℤ) (cfps : ℚ)
    (ctx : MediaCtx) : List String :=
  match bg.kind with
  | .color c =>
    ["-f", "lavfi", "-i",
     "color=c=" ++ c ++ ":size=" ++ toString cw ++ "x" ++ toString ch ++ ":rate=" ++ pystr cfps]
  | .image src => ["-loop", "1", "-i", src]
  | .video src trim =>
    let decoder := bg.getDecoderArgs ctx
    match trim with
    | some (s, e?) =>
      decoder ++ ["-ss", pystr s] ++
        (match e? with
         | some e => ["-t", pystr (e - s)]
         | none => []) ++ ["-i", src]
    | none => decoder ++ ["-i", src]
  | .empty =>
    ["-f", "lavfi", "-i",
     "color=c=black@0.0:size=" ++ toString cw ++ "x" ++ toString ch ++ ":rate=" ++ pystr cfps]

/-- `BaseBackground.audio`: re-instantiate from `model_dump()` (declared fields
only, with the audio pair replaced and the volume clamped), then copy the
probed `_video_info` forward explicitly. -/
def Background.audio (bg : Background) (enabled : Bool) (volume : ℚ) : Background :=
  let dumped : Background :=
    { width := bg.width, height := bg.height, fps := bg.fps, kind := bg.kind,
      audio_enabled := enabled, audio_volume := max 0 (min 1 volume),
      video_info := none }
  { dumped with video_info := bg.video_info }

/-! ## Foreground operations (`foregrounds.py`) -/

/-- `Foreground._get_file_extension`: lowercased suffix of the last path
segment, with the query/fragment stripped for http(s) URLs (models
`Path(...).suffix` over `urlparse(path).path`). -/
def getFileExtension (path : String) : String :=
  let p : List Char :=
    if path.startsWith "http://" || path.startsWith "https://" then
      ((splitOnChar (Char.ofNat 63) path.data).headD []).takeWhile (fun c => c ≠ Char.ofNat 35)
    else path.data
  let base := (splitOnChar (Char.ofNat 47) p).getLastD []
  let parts := splitOnChar (Char.ofNat 46) base
  let suffix : List Char :=
    match parts with
    | [] => []
    | [_] => []
    | ps => if ps.headD [] = [] ∧ ps.length = 2 then [] else (Char.ofNat 46) :: ps.getLastD []
  String.mk (suffix.map Char.toLower)

/-- The `get_source_trim_args` helper of `_build_ffmpeg_argv`: `-ss start`
plus `-t (end-start)` when the Foreground carries a source trim. -/
def getSourceTrimArgs (fg : Foreground) : List String :=
  match fg.source_trim with
  | some (s, e?) =>
    ["-ss", pystr s] ++
      (match e? with
       | some e => ["-t", pystr (e - s)]
       | none => [])
  | none => []

/-- `Foreground.get_ffmpeg_inputs`, dispatched per format; `none` models the
`ValueError` raised for the archive (`png_sequence`) format and for a bundle
without a mask path. Returns `(args, input_map_updates, audio_input_key)`. -/
def Foreground.getFfmpegInputs (fg : Foreground) (input_idx layer_idx : ℕ)
    (ctx : MediaCtx) (source_trim_args composition_timing_args : List String) :
    Option (List String × List (String × ℕ) × Option String) :=
  match fg.format with
  | .webm_vp9 =>
    let args := composition_timing_args ++
      (if ctx.webm_support then ["-c:v", "libvpx-vp9"] else []) ++
      source_trim_args ++ ["-i", fg.primary_path]
    let layer_key := "layer_" ++ toString layer_idx
    some (args, [(layer_key, input_idx)], some layer_key)
  | .mov_prores =>
    let args := composition_timing_args ++ source_trim_args ++ ["-i", fg.primary_path]
    let layer_key := "layer_" ++ toString layer_idx
    some (args, [(layer_key, input_idx)], some layer_key)
  | .pro_bundle =>
    match fg.mask_path with
    | none => none
    | some mask =>
      let useVp9 := fg.primary_path ≠ "" ∧ getFileExtension fg.primary_path = ".webm" ∧
        ctx.webm_support = true
      let rgb_args := composition_timing_args ++
        (if useVp9 then ["-c:v", "libvpx-vp9"] else []) ++
        source_trim_args ++ ["-i", fg.primary_path]
      let mask_args := composition_timing_args ++ source_trim_args ++ ["-i", mask]
      let args := rgb_args ++ mask_args
      let updates := [("layer_" ++ toString layer_idx ++ "_rgb", input_idx),
                      ("layer_" ++ toString layer_idx ++ "_mask", input_idx + 1)]
      if (fg.audio_path.getD "") ≠ "" then
        let audio_args := composition_timing_args ++ source_trim_args ++
          ["-i", fg.audio_path.getD ""]
        let audio_key := "layer_" ++ toString layer_idx ++ "_audio"
        some (args ++ audio_args, updates ++ [(audio_key, input_idx + 2)], some audio_key)
      else
        some (args, updates, some ("layer_" ++ toString layer_idx ++ "_rgb"))
  | .stacked_video =>
    let args := composition_timing_args ++ source_trim_args ++ ["-i", fg.primary_path]
    let layer_key := "layer_" ++ toString layer_idx ++ "_stacked"
    some (args, [(layer_key, input_idx)], some layer_key)
  | .png_sequence => none

/-- The mask-binarization expression emitted for bundle and stacked formats:
`geq='if(gte(lum(X,Y),128),255,0)'`. -/
def maskBinarizeExpr : String :=
  "geq=" ++ sq ++ "if(gte(lum(X,Y),128),255,0)" ++ sq

/-- `Foreground._get_webm_filters` / `_get_mov_filters` share this body. -/
def alphaDirectFilters (layer_label : String) (input_map : List (String × ℕ))
    (alpha_enabled : Bool) : List String :=
  if alpha_enabled then []
  else
    let input_key := "layer_" ++ String.mk ((splitOnChar (Char.ofNat 95) layer_label.data).getD 1 [])
    ["[" ++ toString (dictGetD input_map input_key 0) ++ ":v]format=rgb24[" ++
      layer_label ++ "_merged]"]

/-- `Foreground._get_bundle_filters`. -/
def bundleFilters (layer_label : String) (input_map : List (String × ℕ))
    (alpha_enabled : Bool) : List String :=
  let rgb_input := "[" ++ toString (dictGetD input_map (layer_label ++ "_rgb") 0) ++ ":v]"
  if alpha_enabled then
    let mask_input := "[" ++ toString (dictGetD input_map (layer_label ++ "_mask") 0) ++ ":v]"
    [rgb_input ++ "format=rgba[" ++ layer_label ++ "_rgba]",
     mask_input ++ "format=gray[" ++ layer_label ++ "_mask_gray]",
     "[" ++ layer_label ++ "_mask_gray]" ++ maskBinarizeExpr ++ "[" ++ layer_label ++ "_binary_mask]",
     "[" ++ layer_label ++ "_rgba][" ++ layer_label ++ "_binary_mask]alphamerge[" ++
       layer_label ++ "_merged]"]
  else
    [rgb_input ++ "format=rgb24[" ++ layer_label ++ "_merged]"]

/-- `Foreground._get_stacked_filters`. -/
def stackedFilters (layer_label : String) (input_map : List (String × ℕ))
    (alpha_enabled : Bool) : List String :=
  let stacked_input := "[" ++ toString (dictGetD input_map (layer_label ++ "_stacked") 0) ++ ":v]"
  [stacked_input ++ "crop=iw:ih/2:0:0[" ++ layer_label ++ "_top]"] ++
  (if alpha_enabled then
    ["[" ++ layer_label ++ "_top]format=rgba[" ++ layer_label ++ "_top_rgba]",
     stacked_input ++ "crop=iw:ih/2:0:ih/2[" ++ layer_label ++ "_bottom]",
     "[" ++ layer_label ++ "_bottom]format=gray[" ++ layer_label ++ "_mask_gray]",
     "[" ++ layer_label ++ "_mask_gray]" ++ maskBinarizeExpr ++ "[" ++ layer_label ++ "_binary_mask]",
     "[" ++ layer_label ++ "_top_rgba][" ++ layer_label ++ "_binary_mask]alphamerge[" ++
       layer_label ++ "_merged]"]
  else
    ["[" ++ layer_label ++ "_top]format=rgb24[" ++ layer_label ++ "_merged]"])

/-- `Foreground.get_ffmpeg_filters`; `none` is the unknown-format `ValueError`. -/
def Foreground.getFfmpegFilters (fg : Foreground) (layer_label : String)
    (input_map : List (String × ℕ)) (alpha_enabled : Bool) : Option (List String) :=
  match fg.format with
  | .webm_vp9 => some (alphaDirectFilters layer_label input_map alpha_enabled)
  | .mov_prores => some (alphaDirectFilters layer_label input_map alpha_enabled)
  | .pro_bundle => some (bundleFilters layer_label input_map alpha_enabled)
  | .stacked_video => some (stackedFilters layer_label input_map alpha_enabled)
  | .png_sequence => none

/-- `Foreground.get_current_input_label`. -/
def Foreground.getCurrentInputLabel (fg : Foreground) (layer_label : String)
    (alpha_enabled : Bool) : Option String :=
  match fg.format with
  | .webm_vp9 =>
    if alpha_enabled then
      some ("[layer_" ++ String.mk ((splitOnChar (Char.ofNat 95) layer_label.data).getD 1 []) ++ ":v]")
    else some ("[" ++ layer_label ++ "_merged]")
  | .mov_prores =>
    if alpha_enabled then
      some ("[layer_" ++ String.mk ((splitOnChar (Char.ofNat 95) layer_label.data).getD 1 []) ++ ":v]")
    else some ("[" ++ layer_label ++ "_merged]")
  | .pro_bundle => some ("[" ++ layer_label ++ "_merged]")
  | .stacked_video => some ("[" ++ layer_label ++ "_merged]")
  | .png_sequence => none

/-! ## Canvas and duration resolution (`composition.py`) -/

/-- `Composition._get_canvas_size`; `none` models the `RuntimeError` raised
when neither a (truthy-dimensioned) background nor a canvas hint exists. -/
def getCanvasSize (c : Composition) : Option (ℤ × ℤ × ℚ) :=
  match c.background with
  | some bg =>
    if bg.width ≠ 0 ∧ bg.height ≠ 0 ∧ bg.fps ≠ 0 then
      some (bg.width, bg.height, bg.fps)
    else c.canvas_hint
  | none => c.canvas_hint

/-- `Composition._get_foreground_duration`: the probed duration when the info
exists and the stored value is truthy. -/
def getForegroundDuration (fg : Foreground) : Option ℚ :=
  match fg.video_info with
  | some info =>
    match info.duration with
    | some d => if d ≠ 0 then some d else none
    | none => none
  | none => none

/-- The loop body of `_get_longest_foreground_duration`. -/
def longestStep (acc : ℚ) (l : Layer) : ℚ :=
  match getForegroundDuration l.fg with
  | some d => if d > acc then d else acc
  | none => acc

/-- `Composition._get_longest_foreground_duration`. -/
def getLongestForegroundDuration (c : Composition) : Option ℚ :=
  let m := c.layers.foldl longestStep 0
  if m > 0 then some m else none

/-- `Composition._get_composition_duration`: the three-rule policy. -/
def getCompositionDuration (c : Composition) : Option ℚ :=
  match c.explicit_duration with
  | some d => some d
  | none =>
    match c.background with
    | some bg =>
      if bg.controlsDuration then
        match bg.getDuration with
        | some d => if d > 0 then some d else getLongestForegroundDuration c
        | none => getLongestForegroundDuration c
      else getLongestForegroundDuration c
    | none => getLongestForegroundDuration c

/-! ## Scaling (`composition.py`) -/

/-- `Composition._get_aspect_ratio_constraint`. -/
def getAspectRatioConstraint (size_mode : SizeMode) : Option String :=
  match size_mode with
  | .canvasPercent | .px | .contain | .fitWidth | .fitHeight => some "decrease"
  | .cover => some "increase"
  | .scale => none

/-- The `force_original_aspect_ratio` suffix appended to `scale_params`. -/
def aspectSuffix (size_mode : SizeMode) : String :=
  match getAspectRatioConstraint size_mode with
  | some c => ":force_original_aspect_ratio=" ++ c
  | none => ""

/-- Python `(percent or 100)`: falsy percent (absent or zero) becomes 100. -/
def percentOr100 (o : Option ℚ) : ℚ :=
  match o with
  | some p => if p ≠ 0 then p else 100
  | none => 100

/-- `Composition._calculate_target_dimensions` (CANVAS_PERCENT sizing). -/
def calcTargetDims (size : SizeSpec) (canvas_width canvas_height : ℤ) : ℤ × ℤ :=
  if size.mode ≠ .canvasPercent then (canvas_width, canvas_height)
  else
    match size.width, size.height with
    | some w, some h =>
      (pyint ((canvas_width * w : ℤ) / (100 : ℚ)), pyint ((canvas_height * h : ℤ) / (100 : ℚ)))
    | some w, none =>
      (pyint ((canvas_width * w : ℤ) / (100 : ℚ)),
       pyint ((canvas_height : ℚ) * percentOr100 size.percent / 100))
    | none, some h =>
      (pyint ((canvas_width : ℚ) * percentOr100 size.percent / 100),
       pyint ((canvas_height * h : ℤ) / (100 : ℚ)))
    | none, none =>
      match size.percent with
      | some p =>
        if p ≠ 0 then
          (pyint ((canvas_width : ℚ) * p / 100), pyint ((canvas_height : ℚ) * p / 100))
        else (canvas_width, canvas_height)
      | none => (canvas_width, canvas_height)

/-- The `scale_applied`/`target_w`/`target_h` block of
`_get_layer_transformation_filters`: the rendered target pair when a scale
filter is emitted, `none` when `scale_applied` stays false. -/
def scaleTarget (size : SizeSpec) (canvas_width canvas_height : ℤ) : Option (String × String) :=
  match size.mode with
  | .px =>
    match size.width, size.height with
    | some w, some h => if w ≠ 0 ∧ h ≠ 0 then some (toString w, toString h) else none
    | _, _ => none
  | .canvasPercent =>
    let t := calcTargetDims size canvas_width canvas_height
    some (toString t.1, toString t.2)
  | .contain => some (toString canvas_width, toString canvas_height)
  | .cover => some (toString canvas_width, toString canvas_height)
  | .fitWidth => some (toString canvas_width, toString (-1 : ℤ))
  | .fitHeight => some (toString (-1 : ℤ), toString canvas_height)
  | .scale =>
    match size.width, size.height with
    | some w, some h => some ("iw*" ++ toString w, "ih*" ++ toString h)
    | some w, none =>
      match size.scale with
      | some s => some ("iw*" ++ pystr s, "ih*" ++ pystr s)
      | none => some ("iw*" ++ toString w, "ih*" ++ toString w)
    | none, some h =>
      match size.scale with
      | some s => some ("iw*" ++ pystr s, "ih*" ++ pystr s)
      | none => some ("iw*" ++ toString h, "ih*" ++ toString h)
    | none, none =>
      match size.scale with
      | some s => some ("iw*" ++ pystr s, "ih*" ++ pystr s)
      | none => some ("iw", "ih")

/-! ## Per-layer transformation filters (`_get_layer_transformation_filters`) -/

/-- The timeline-shift stage: `(emitted filters, current output label)`. -/
def timedStage (layer : Layer) (layer_label current : String) : List String × String :=
  match layer.comp_start with
  | some s =>
    if 0 < s then
      ([current ++ "setpts=PTS-STARTPTS,setpts=PTS+" ++ pystr s ++ "/TB[" ++
         layer_label ++ "_timed]"],
       "[" ++ layer_label ++ "_timed]")
    else ([], current)
  | none => ([], current)

/-- The crop stage. -/
def cropStage (layer : Layer) (layer_label current : String) : List String × String :=
  match layer.crop with
  | some (x, y, w, h) =>
    ([current ++ "crop=" ++ toString w ++ ":" ++ toString h ++ ":" ++ toString x ++ ":" ++
       toString y ++ "[" ++ layer_label ++ "_crop]"],
     "[" ++ layer_label ++ "_crop]")
  | none => ([], current)

/-- The scale stage. -/
def scaleStage (layer : Layer) (layer_label current : String) (cw ch : ℤ) :
    List String × String :=
  match scaleTarget layer.size cw ch with
  | some (tw, th) =>
    ([current ++ "scale=" ++ tw ++ ":" ++ th ++ aspectSuffix layer.size.mode ++ "[" ++
       layer_label ++ "_scale]"],
     "[" ++ layer_label ++ "_scale]")
  | none => ([], current)

/-- The rotation stage. -/
def rotateStage (layer : Layer) (layer_label current : String) : List String × String :=
  if layer.rotate ≠ 0 then
    ([current ++ "rotate=" ++ pystr layer.rotate ++ "*PI/180[" ++ layer_label ++ "_rotate]"],
     "[" ++ layer_label ++ "_rotate]")
  else ([], current)

/-- The opacity stage. -/
def opacityStage (layer : Layer) (layer_label current : String) : List String × String :=
  if layer.opacity ≠ 1 then
    ([current ++ "colorchannelmixer=aa=" ++ pystr layer.opacity ++ "[" ++
       layer_label ++ "_opacity]"],
     "[" ++ layer_label ++ "_opacity]")
  else ([], current)

/-- `Composition._get_layer_transformation_filters`. -/
def getLayerTransformationFilters (layer : Layer) (layer_idx : ℕ)
    (current_input : String) (canvas_width canvas_height : ℤ) : List String :=
  let layer_label := "layer_" ++ toString layer_idx
  let s1 := timedStage layer layer_label current_input
  let s2 := cropStage layer layer_label s1.2
  let s3 := scaleStage layer layer_label s2.2 canvas_width canvas_height
  let s4 := rotateStage layer layer_label s3.2
  let s5 := opacityStage layer layer_label s4.2
  let filters := s1.1 ++ s2.1 ++ s3.1 ++ s4.1 ++ s5.1
  if filters = [] then []
  else if strEndsWith s5.2 ("[layer_" ++ toString layer_idx ++ "_final]") then filters
  else filters ++ [s5.2 ++ "null[layer_" ++ toString layer_idx ++ "_final]"]

/-- `Composition._get_overlay_timing_enable` — defined for completeness: no
compilation path references it (see claim C10). -/
def getOverlayTimingEnable (layer : Layer) : String :=
  let start_time := layer.comp_start.getD 0
  let end_time : Option ℚ :=
    match layer.comp_end with
    | some e => some e
    | none =>
      match layer.comp_duration with
      | some d => some (start_time + d)
      | none => none
  match end_time with
  | some e =>
    ":enable=" ++ sq ++ "between(t," ++ pystr start_time ++ "," ++ pystr e ++ ")" ++ sq
  | none =>
    if start_time > 0 then ":enable=" ++ sq ++ "gte(t," ++ pystr start_time ++ ")" ++ sq
    else ""

/-! ## Overlay positioning (`_calculate_overlay_position`) -/

/-- `f"base{d:+d}" if d != 0 else "base"`. -/
def posBase (base : String) (d : ℤ) : String :=
  if d ≠ 0 then base ++ pySigned d else base

/-- Column of an anchor: 0 = left, 1 = center, 2 = right. -/
def anchorCol (a : Anchor) : ℕ :=
  match a with
  | .topLeft | .centerLeft | .bottomLeft => 0
  | .topCenter | .center | .bottomCenter => 1
  | .topRight | .centerRight | .bottomRight => 2

/-- Row of an anchor: 0 = top, 1 = center, 2 = bottom. -/
def anchorRow (a : Anchor) : ℕ :=
  match a with
  | .topLeft | .topCenter | .topRight => 0
  | .centerLeft | .center | .centerRight => 1
  | .bottomLeft | .bottomCenter | .bottomRight => 2

/-- `Composition._calculate_overlay_position`. -/
def calculateOverlayPosition (layer : Layer) (canvas_width canvas_height : ℤ) : String :=
  if (layer.x_expr.getD "") ≠ "" ∧ (layer.y_expr.getD "") ≠ "" then
    "x=" ++ sq ++ layer.x_expr.getD "" ++ sq ++ ":y=" ++ sq ++ layer.y_expr.getD "" ++ sq
  else
    let use_target_box := layer.size.mode = SizeMode.canvasPercent
    if use_target_box then
      let t := calcTargetDims layer.size canvas_width canvas_height
      let tw := toString t.1
      let th := toString t.2
      let x0 :=
        match anchorCol layer.anchor with
        | 0 => posBase "0" layer.dx
        | 1 => posBase ("(W-" ++ tw ++ ")/2") layer.dx
        | _ => posBase ("W-" ++ tw) layer.dx
      let y0 :=
        match anchorRow layer.anchor with
        | 0 => posBase "0" layer.dy
        | 1 => posBase ("(H-" ++ th ++ ")/2") layer.dy
        | _ => posBase ("H-" ++ th) layer.dy
      let x1 :=
        match anchorCol layer.anchor with
        | 2 => "(" ++ x0 ++ ")+(" ++ tw ++ "-w)"
        | 1 => "(" ++ x0 ++ ")+(" ++ tw ++ "-w)/2"
        | _ => x0
      let y1 :=
        match anchorRow layer.anchor with
        | 2 => "(" ++ y0 ++ ")+(" ++ th ++ "-h)"
        | 1 => "(" ++ y0 ++ ")+(" ++ th ++ "-h)/2"
        | _ => y0
      "x=" ++ sq ++ x1 ++ sq ++ ":y=" ++ sq ++ y1 ++ sq
    else
      let x0 :=
        match anchorCol layer.anchor with
        | 0 => posBase "0" layer.dx
        | 1 => posBase "(W-w)/2" layer.dx
        | _ => posBase "W-w" layer.dx
      let y0 :=
        match anchorRow layer.anchor with
        | 0 => posBase "0" layer.dy
        | 1 => posBase "(H-h)/2" layer.dy
        | _ => posBase "H-h" layer.dy
      "x=" ++ sq ++ x0 ++ sq ++ ":y=" ++ sq ++ y0 ++ sq

/-! ## Input allocation (the per-layer input loop of `_build_ffmpeg_argv`) -/

/-- The per-layer input loop: threads the argument list, the input map and the
collected foreground audio entries; `none` models a raising foreground format. -/
def collectAux (ctx : MediaCtx) :
    List Layer → ℕ → List (String × ℕ) → List String → List AudioInput →
    Option (List String × List (String × ℕ) × List AudioInput)
  | [], _, m, args, audio => some (args, m, audio)
  | l :: rest, i, m, args, audio =>
    let input_idx := maxValues m + 1
    match l.fg.getFfmpegInputs input_idx i ctx (getSourceTrimArgs l.fg) [] with
    | none => none
    | some (fargs, updates, audioKey) =>
      let m' := updates.foldl (fun mm p => dictInsert mm p.1 p.2) m
      let audio' :=
        match audioKey with
        | some k =>
          if l.audio_enabled ∧ k ≠ "" ∧ dictHas m' k = true then
            audio ++ [{ input := toString (dictGetD m' k 0) ++ ":a",
                        volume := l.audio_volume, typ := "foreground",
                        layer_index := some i }]
          else audio
        | none => audio
      collectAux ctx rest (i + 1) m' (args ++ fargs) audio'

/-- Input allocation over all layers; the background always holds slot 0. -/
def collectLayerInputs (layers : List Layer) (ctx : MediaCtx) :
    Option (List String × List (String × ℕ) × List AudioInput) :=
  collectAux ctx layers 0 [("background", 0)] [] []

/-! ## Video filter graph (the z-ordered overlay loop) -/

/-- Stable insertion into a z-sorted list (equal z keeps earlier entries first). -/
def insertZ (x : ℕ × Layer) : List (ℕ × Layer) → List (ℕ × Layer)
  | [] => [x]
  | y :: ys => if y.2.z ≤ x.2.z then y :: insertZ x ys else x :: y :: ys

/-- Python `sorted(enumerate(layers), key=z)` (a stable sort). -/
def sortLayersByZ (ls : List (ℕ × Layer)) : List (ℕ × Layer) :=
  ls.foldl (fun acc x => insertZ x acc) []

/-- One pass of the overlay loop; `pos` is the index in the sorted order and
`total` the layer count. -/
def videoGraphAux (input_map : List (String × ℕ)) (cw ch : ℤ) :
    List (ℕ × Layer) → ℕ → ℕ → String → List String → Option (List String)
  | [], _, _, _, acc => some acc
  | (original_idx, layer) :: rest, pos, total, current, acc =>
    let layer_label := "layer_" ++ toString original_idx
    match layer.fg.getFfmpegFilters layer_label input_map layer.alpha_enabled with
    | none => none
    | some format_filters =>
      let layer_output_opt : Option String :=
        if format_filters ≠ [] then
          layer.fg.getCurrentInputLabel layer_label layer.alpha_enabled
        else
          some ("[" ++ toString (dictGetD input_map ("layer_" ++ toString original_idx) 0) ++ ":v]")
      match layer_output_opt with
      | none => none
      | some layer_output0 =>
        let trans := getLayerTransformationFilters layer original_idx layer_output0 cw ch
        let layer_output :=
          if trans ≠ [] then "[layer_" ++ toString original_idx ++ "_final]" else layer_output0
        let overlay_params :=
          "=" ++ calculateOverlayPosition layer cw ch ++ ":eof_action=pass"
        let acc' := acc ++ format_filters ++ trans
        if pos = total - 1 then
          videoGraphAux input_map cw ch rest (pos + 1) total current
            (acc' ++ [current ++ layer_output ++ "overlay" ++ overlay_params ++ "[out]"])
        else
          let tmp := "[tmp" ++ toString pos ++ "]"
          videoGraphAux input_map cw ch rest (pos + 1) total tmp
            (acc' ++ [current ++ layer_output ++ "overlay" ++ overlay_params ++ tmp])

/-- The video filter graph of `_build_ffmpeg_argv` (empty for zero layers). -/
def videoGraph (layers : List Layer) (input_map : List (String × ℕ)) (cw ch : ℤ) :
    Option (List String) :=
  let sorted := sortLayersByZ layers.enum
  videoGraphAux input_map cw ch sorted 0 sorted.length
    ("[" ++ toString (dictGetD input_map "background" 0) ++ ":v]") []

/-! ## Audio graph (`_build_ffmpeg_argv`, audio section) -/

/-- The background's audio entry, appended after all foreground entries. -/
def bgAudioEntries (bg? : Option Background) (input_map : List (String × ℕ)) :
    List AudioInput :=
  match bg? with
  | some bg =>
    if bg.audio_enabled && bg.hasAudio then
      [{ input := toString (dictGetD input_map "background" 0) ++ ":a",
         volume := bg.audio_volume, typ := "background", layer_index := none }]
    else []
  | none => []

/-- One iteration of the multiple-source audio loop: the emitted filters and
the processed label for entry `e` at position `i`.  Note the source's
`layer_idx = audio_input.get("layer_index", i)`: an entry without a
`layer_index` (the background) falls back to its list position. -/
def processAudioEntry (layers : List Layer) (i : ℕ) (e : AudioInput) :
    List String × String :=
  let layer_idx := e.layer_index.getD i
  match layers[layer_idx]? with
  | some layer =>
    let cur0 := "[" ++ e.input ++ "]"
    let s1 : List String × String :=
      match layer.comp_start with
      | some s =>
        if 0 < s then
          let delay_ms := pyint (s * 1000)
          (["[" ++ e.input ++ "]adelay=" ++ toString delay_ms ++ "|" ++ toString delay_ms ++
             "[audio_delayed_" ++ toString i ++ "]"],
           "[audio_delayed_" ++ toString i ++ "]")
        else ([], cur0)
      | none => ([], cur0)
    if e.volume ≠ 1 then
      (s1.1 ++ [s1.2 ++ "volume=" ++ pystr e.volume ++ "[audio_vol_" ++ toString i ++ "]"],
       "[audio_vol_" ++ toString i ++ "]")
    else s1
  | none =>
    if e.volume ≠ 1 then
      (["[" ++ e.input ++ "]volume=" ++ pystr e.volume ++ "[audio_vol_" ++ toString i ++ "]"],
       "[audio_vol_" ++ toString i ++ "]")
    else ([], "[" ++ e.input ++ "]")

/-- The audio section: `(audio_filter_parts, audio_map_args)` for zero, one,
or many collected audio inputs. -/
def audioSection (layers : List Layer) (audio_inputs : List AudioInput) :
    List String × List String :=
  match audio_inputs with
  | [] => ([], ["-an"])
  | [a] =>
    let delayInfo : Bool × ℚ :=
      if a.typ = "foreground" then
        match layers[a.layer_index.getD 0]? with
        | some layer =>
          match layer.comp_start with
          | some s => (decide (0 < s), s)
          | none => (false, 0)
        | none => (false, 0)
      else (false, 0)
    if delayInfo.1 = true ∨ a.volume ≠ 1 then
      let cur0 := "[" ++ a.input ++ "]"
      let s1 : List String × String :=
        if delayInfo.1 then
          let delay_ms := pyint (delayInfo.2 * 1000)
          (["[" ++ a.input ++ "]adelay=" ++ toString delay_ms ++ "|" ++ toString delay_ms ++
             "[audio_delayed]"],
           "[audio_delayed]")
        else ([], cur0)
      let fs :=
        if a.volume ≠ 1 then s1.1 ++ [s1.2 ++ "volume=" ++ pystr a.volume ++ "[audio_out]"]
        else if s1.2 ≠ "[audio_out]" then s1.1 ++ [s1.2 ++ "anull[audio_out]"]
        else s1.1
      (fs, ["-map", "[audio_out]"])
    else ([], ["-map", a.input ++ "?"])
  | _ =>
    let processed := audio_inputs.enum.map (fun p => processAudioEntry layers p.1 p.2)
    let labels := processed.map (·.2)
    let amix := joinAll labels ++ "amix=inputs=" ++ toString labels.length ++
      ":duration=longest[audio_out]"
    ((processed.map (·.1)).flatten ++ [amix], ["-map", "[audio_out]"])

/-! ## Encoder profiles and serialization -/

/-- Python `self.crf or d`. -/
def crfOr (o : Option ℤ) (d : ℤ) : ℤ :=
  match o with
  | some c => if c ≠ 0 then c else d
  | none => d

/-- Python `self.preset or d`. -/
def presetOr (o : Option String) (d : String) : String :=
  match o with
  | some p => if p ≠ "" then p else d
  | none => d

/-- `EncoderProfile.args`. -/
def EncoderProfile.args (e : EncoderProfile) (out_path : String) : List String :=
  (match e.kind with
   | .h264 =>
     ["-c:v", "libx264", "-crf", toString (crfOr e.crf 18), "-preset",
      presetOr e.preset "medium", "-pix_fmt", "yuv420p"]
   | .vp9 => ["-c:v", "libvpx-vp9", "-crf", toString (crfOr e.crf 32), "-b:v", "0"]
   | .transparent_webm =>
     ["-c:v", "libvpx-vp9", "-crf", toString (crfOr e.crf 28), "-b:v", "0",
      "-pix_fmt", "yuva420p", "-auto-alt-ref", "0"]
   | .prores_4444 => ["-c:v", "prores_ks", "-profile:v", "4", "-pix_fmt", "yuva444p10le"]
   | .png_sequence =>
     ["-c:v", "png", "-pix_fmt", "rgba"] ++
       (match e.fps with
        | some f => if f ≠ 0 then ["-r", pystr f] else []
        | none => [])
   | .stacked_video =>
     ["-c:v", "libx264", "-crf", toString (crfOr e.crf 18), "-preset",
      presetOr e.preset "medium", "-pix_fmt", "yuv420p"]) ++ [out_path]

/-- The `-t` duration clamp (`if comp_duration:` — falsy durations are dropped). -/
def durationArgs (c : Composition) : List String :=
  match getCompositionDuration c with
  | some d => if d ≠ 0 then ["-t", pystr d] else []
  | none => []

/-- The trailing container-format arguments for streaming output. -/
def streamFormatArgs (to_pipe : Bool) (sf : Option String) : List String :=
  if to_pipe then
    match sf with
    | some "y4m" => ["-f", "yuv4mpegpipe"]
    | some "webm" => ["-f", "webm"]
    | some "matroska" => ["-f", "matroska"]
    | some "mp4_fragmented" => ["-f", "mp4", "-movflags", "frag_keyframe+empty_moov"]
    | _ => []
  else []

/-- `Composition._build_ffmpeg_argv`: the full serialized argument vector;
`none` models any raised error (canvas unresolvable, raising foreground
format). -/
def buildFfmpegArgv (c : Composition) (ctx : MediaCtx) (encoder : EncoderProfile)
    (out_path : String) (to_pipe : Bool) (stream_format : Option String) :
    Option (List String) :=
  match getCanvasSize c with
  | none => none
  | some (cw, ch, cfps) =>
    let bgArgs :=
      match c.background with
      | some bg => bg.getFfmpegInputArgs cw ch cfps ctx
      | none =>
        ["-f", "lavfi", "-i",
         "color=c=black@0.0:size=" ++ toString cw ++ "x" ++ toString ch ++ ":rate=" ++ pystr cfps]
    match collectLayerInputs c.layers ctx with
    | none => none
    | some (layerArgs, input_map, fgAudio) =>
      match videoGraph c.layers input_map cw ch with
      | none => none
      | some vparts =>
        let video_map_args :=
          if vparts ≠ [] then ["-map", "[out]"]
          else ["-map", toString (dictGetD input_map "background" 0) ++ ":v"]
        let audio_inputs := fgAudio ++ bgAudioEntries c.background input_map
        let audio := audioSection c.layers audio_inputs
        let all_filter_parts := vparts ++ audio.1
        let fcArgs :=
          if all_filter_parts ≠ [] then ["-filter_complex", joinSep ";" all_filter_parts]
          else []
        let encoder_args := encoder.args (if to_pipe then "-" else out_path)
        some ([ctx.ffmpeg, "-y"] ++ bgArgs ++ layerArgs ++ fcArgs ++ video_map_args ++
          audio.2 ++ durationArgs c ++ encoder_args.dropLast ++
          streamFormatArgs to_pipe stream_format ++ [encoder_args.getLastD ""])

/-- `Composition.dry_run`: h264 defaults, output `OUT.mp4`, space-joined. -/
def dryRun (c : Composition) (ctx : MediaCtx) : Option String :=
  (buildFfmpegArgv c ctx
    { kind := .h264, crf := some 18, preset := some "medium", layout := none, fps := none }
    "OUT.mp4" false none).map (joinSep " ")

/-! ## Spec-side definitions (written from the specification's words, to be
compared with the code-side definitions above) -/

/-- The positive probed durations of the layers' Foregrounds. -/
def posDurs (layers : List Layer) : List ℚ :=
  (layers.filterMap (fun l => getForegroundDuration l.fg)).filter (fun d => 0 < d)

/-- Spec rule (3): "the maximum probed duration over all layers' Foregrounds
is used, and None when no layer has a positive probed duration". -/
def specLongest (layers : List Layer) : Option ℚ := (posDurs layers).max?

/-- Spec rule (2): "if the background is duration-authoritative (a video
background) and its probed duration is positive, that duration is used". -/
def specBgAuthority (bg? : Option Background) : Option ℚ :=
  match bg? with
  | some bg =>
    match bg.kind with
    | .video _ _ =>
      match bg.getDuration with
      | some d => if 0 < d then some d else none
      | none => none
    | _ => none
  | none => none

/-- The spec's three ordered duration rules, first match winning. -/
def specDuration (c : Composition) : Option ℚ :=
  match c.explicit_duration with
  | some d => some d
  | none =>
    match specBgAuthority c.background with
    | some d => some d
    | none => specLongest c.layers

/-- Semantics of the emitted binarization expression
`if(gte(lum(X,Y),128),255,0)` at one mask luminance value. -/
def geqBinarize (lum : ℕ) : ℕ := if 128 ≤ lum then 255 else 0

/-! ## Helper lemmas -/

theorem foldl_longestStep_eq_foldl_max (ls : List Layer) :
    ∀ acc : ℚ, 0 ≤ acc → ls.foldl longestStep acc = (posDurs ls).foldl max acc := by
  induction ls with
  | nil => intro acc _; rfl
  | cons l rest ih =>
    intro acc hacc
    simp only [List.foldl_cons, posDurs, List.filterMap_cons]
    cases hfd : getForegroundDuration l.fg with
    | none =>
      simp only [longestStep, hfd]
      exact ih acc hacc
    | some d =>
      by_cases hd : 0 < d
      · have hstep : longestStep acc l = max acc d := by
          simp only [longestStep, hfd]
          rcases le_or_lt d acc with h | h
          · rw [if_neg (not_lt.mpr h), max_eq_left h]
          · rw [if_pos h, max_eq_right h.le]
        rw [hstep]
        have : (d :: (rest.filterMap fun l => getForegroundDuration l.fg)).filter
            (fun d => decide (0 < d)) =
            d :: ((rest.filterMap fun l => getForegroundDuration l.fg).filter
              (fun d => decide (0 < d))) := by
          simp [List.filter_cons, hd]
        rw [this, List.foldl_cons]
        exact ih (max acc d) (le_trans hacc (le_max_left _ _))
      · have hstep : longestStep acc l = acc := by
          simp only [longestStep, hfd]
          rw [if_neg (not_lt.mpr (le_trans (not_lt.mp hd) hacc))]
        rw [hstep]
        have : (d :: (rest.filterMap fun l => getForegroundDuration l.fg)).filter
            (fun d => decide (0 < d)) =
            ((rest.filterMap fun l => getForegroundDuration l.fg).filter
              (fun d => decide (0 < d))) := by
          simp [List.filter_cons, hd]
        rw [this]
        exact ih acc hacc

theorem le_foldl_max (xs : List ℚ) : ∀ a : ℚ, a ≤ xs.foldl max a := by
  induction xs with
  | nil => intro a; exact le_refl a
  | cons x rest ih =>
    intro a
    exact le_trans (le_max_left a x) (ih (max a x))

theorem posDurs_pos (layers : List Layer) : ∀ d ∈ posDurs layers, 0 < d := by
  intro d hd
  have := List.of_mem_filter hd
  exact of_decide_eq_true this

theorem getLongest_eq_specLongest (c : Composition) :
    getLongestForegroundDuration c = specLongest c.layers := by
  unfold getLongestForegroundDuration specLongest
  rw [foldl_longestStep_eq_foldl_max c.layers 0 le_rfl]
  cases hp : posDurs c.layers with
  | nil => simp
  | cons x xs =>
    have hx : 0 < x := posDurs_pos c.layers x (by rw [hp]; exact List.mem_cons_self x xs)
    simp only [List.foldl_cons, List.max?_cons']
    rw [max_eq_right hx.le]
    have hpos : 0 < xs.foldl max x := lt_of_lt_of_le hx (le_foldl_max xs x)
    rw [if_pos hpos]

theorem durationPolicy_eq (c : Composition) : getCompositionDuration c = specDuration c := by
  obtain ⟨bg?, layers, hint, dur?⟩ := c
  cases dur? with
  | some d => rfl
  | none =>
    cases bg? with
    | none => exact getLongest_eq_specLongest _
    | some bg =>
      obtain ⟨w, h, f, ae, av, kind, vi⟩ := bg
      cases kind with
      | color col => exact getLongest_eq_specLongest _
      | image src => exact getLongest_eq_specLongest _
      | empty => exact getLongest_eq_specLongest _
      | video src trim =>
        cases vi with
        | none => exact getLongest_eq_specLongest _
        | some info =>
          obtain ⟨d?, streams, nv⟩ := info
          cases d? with
          | none => exact getLongest_eq_specLongest _
          | some d =>
            simp only [getCompositionDuration, specDuration, specBgAuthority,
              Background.controlsDuration, Background.getDuration, if_true]
            by_cases hd : d = 0
            · subst hd
              simp only [ne_eq, not_true_eq_false, if_false, ite_false]
              exact getLongest_eq_specLongest _
            · simp only [ne_eq, hd, not_false_eq_true, if_true, ite_true]
              by_cases hp : 0 < d
              · rw [if_pos hp, if_pos hp]
              · rw [if_neg hp, if_neg hp]
                exact getLongest_eq_specLongest _

/-! ## Concrete fixtures -/

/-- A probed single-file-with-alpha foreground with the given duration. -/
def fgOfDur (d : ℚ) : Foreground :=
  { format := .webm_vp9, primary_path := "fg.webm", mask_path := none, audio_path := none,
    source_trim := none,
    video_info := some { duration := some d, streams := ["video", "audio"],
                         needs_vp9_decoder := true } }

/-- A probed 1920×1080\@30 video background of duration 12 with an audio stream. -/
def bgVideo12 : Background :=
  { width := 1920, height := 1080, fps := 30, audio_enabled := true, audio_volume := 1,
    kind := .video "bg.mp4" none,
    video_info := some { duration := some 12, streams := ["video", "audio"],
                         needs_vp9_decoder := false } }

/-- A 1920×1080\@30 solid-color background. -/
def bgColor1080 : Background :=
  { width := 1920, height := 1080, fps := 30, audio_enabled := false, audio_volume := 1,
    kind := .color "#000000", video_info := none }

/-- Two layers whose Foregrounds probe to durations 5 and 9. -/
def layersDur59 : List Layer := [mkLayer (fgOfDur 5) "layer0" 0, mkLayer (fgOfDur 9) "layer1" 1]

/-- (explicit=None, video bg 12.0, layer durations [5,9]). -/
def exDur1 : Composition :=
  { background := some bgVideo12, layers := layersDur59, canvas_hint := none,
    explicit_duration := none }

/-- (explicit=7.5, video bg 12.0, layer durations [5,9]). -/
def exDur2 : Composition := { exDur1 with explicit_duration := some (15 / 2) }

/-- (explicit=None, color bg, layer durations [5,9]). -/
def exDur3 : Composition :=
  { background := some bgColor1080, layers := layersDur59, canvas_hint := none,
    explicit_duration := none }

/-! ## Claim theorems -/

/-- C2: the resolved output duration obeys exactly the spec's three ordered
rules (explicit override, else positive probed duration of a
duration-authoritative video background, else maximum positive probed layer
duration with `None` when there is none), and the three worked examples
resolve to 12, 7.5 and 9 respectively. -/
theorem claim_C2_duration_rules :
    (∀ c : Composition, getCompositionDuration c = specDuration c)
  ∧ getCompositionDuration exDur1 = some 12
  ∧ getCompositionDuration exDur2 = some (15 / 2)
  ∧ getCompositionDuration exDur3 = some 9 := by
  refine ⟨durationPolicy_eq, by decide, rfl, by decide⟩

/-- C6: the mask-binarization expression emitted for the separate-RGB+mask and
stacked formats with alpha enabled is the inclusive-threshold expression
`if(gte(lum(X,Y),128),255,0)`; its semantics maps the threshold value 128
itself (and everything above) to fully opaque 255, everything below to fully
transparent 0, and never yields an intermediate alpha value. -/
theorem claim_C6_mask_binarization :
    (∀ (label : String) (m : List (String × ℕ)),
      ("[" ++ label ++ "_mask_gray]" ++ maskBinarizeExpr ++ "[" ++ label ++ "_binary_mask]")
        ∈ bundleFilters label m true
    ∧ ("[" ++ label ++ "_mask_gray]" ++ maskBinarizeExpr ++ "[" ++ label ++ "_binary_mask]")
        ∈ stackedFilters label m true)
  ∧ geqBinarize 128 = 255
  ∧ geqBinarize 127 = 0
  ∧ (∀ lum, 128 ≤ lum → geqBinarize lum = 255)
  ∧ (∀ lum, lum < 128 → geqBinarize lum = 0)
  ∧ (∀ lum, geqBinarize lum = 0 ∨ geqBinarize lum = 255) := by
  refine ⟨?_, rfl, rfl, ?_, ?_, ?_⟩
  · intro label m
    constructor
    · simp only [bundleFilters, if_true]
      exact List.mem_cons_of_mem _ (List.mem_cons_of_mem _ (List.mem_cons_self _ _))
    · simp only [stackedFilters, if_true]
      refine List.mem_append_right _ ?_
      exact List.mem_cons_of_mem _ (List.mem_cons_of_mem _
        (List.mem_cons_of_mem _ (List.mem_cons_self _ _)))
  · intro lum h
    simp [geqBinarize, h]
  · intro lum h
    simp [geqBinarize, Nat.not_le.mpr h]
  · intro lum
    by_cases h : 128 ≤ lum
    · right; simp [geqBinarize, h]
    · left; simp [geqBinarize, h]

/-- Witness for C6 at concrete inputs. -/
theorem claim_C6_mask_binarization_witness :
    ("[layer_0_mask_gray]" ++ maskBinarizeExpr ++ "[layer_0_binary_mask]")
      ∈ bundleFilters "layer_0" [("layer_0_rgb", 1), ("layer_0_mask", 2)] true
  ∧ geqBinarize 200 = 255 ∧ geqBinarize 50 = 0 := by
  have h := claim_C6_mask_binarization
  exact ⟨(h.1 "layer_0" [("layer_0_rgb", 1), ("layer_0_mask", 2)]).1,
    h.2.2.2.1 200 (by norm_num), h.2.2.2.2.1 50 (by norm_num)⟩

/-- C8: `.audio(enabled, volume)` on a background returns an instance on which
only the audio flag and the clamped volume differ; every other declared field
and the probed metadata are carried over unchanged, so `has_audio()` and
`get_duration()` answers are preserved (and in particular a prior `true`
`has_audio()` stays `true`).  The receiver itself is an immutable value. -/
theorem claim_C8_audio_copy_forward (bg : Background) (enabled : Bool) (volume : ℚ) :
    (bg.audio enabled volume).width = bg.width
  ∧ (bg.audio enabled volume).height = bg.height
  ∧ (bg.audio enabled volume).fps = bg.fps
  ∧ (bg.audio enabled volume).kind = bg.kind
  ∧ (bg.audio enabled volume).video_info = bg.video_info
  ∧ (bg.audio enabled volume).audio_enabled = enabled
  ∧ (bg.audio enabled volume).audio_volume = max 0 (min 1 volume)
  ∧ (bg.audio enabled volume).hasAudio = bg.hasAudio
  ∧ (bg.audio enabled volume).getDuration = bg.getDuration :=
  ⟨rfl, rfl, rfl, rfl, rfl, rfl, rfl, rfl, rfl⟩

/-- A color background with a negative (nonzero, hence Python-truthy) width. -/
def bgNegWidth : Background :=
  { width := -1, height := 100, fps := 30, audio_enabled := false, audio_volume := 1,
    kind := .color "#ffffff", video_info := none }

/-- A composition holding `bgNegWidth` and an explicit canvas hint. -/
def compNegWidth : Composition :=
  { background := some bgNegWidth, layers := [], canvas_hint := some (640, 480, 30),
    explicit_duration := none }

/-- C7 counterexample: with a background whose width is −1 (not positive) and
an explicit canvas hint, the code still uses the background's dimensions —
the guard is Python truthiness (nonzero), not positivity — so the hint does
not win as the claim requires. -/
theorem claim_C7_counterexample :
    compNegWidth.background = some bgNegWidth
  ∧ bgNegWidth.width < 0
  ∧ compNegWidth.canvas_hint = some (640, 480, 30)
  ∧ getCanvasSize compNegWidth = some (-1, 100, 30)
  ∧ getCanvasSize compNegWidth ≠ some (640, 480, 30) := by
  refine ⟨rfl, by decide, rfl, by decide, by decide⟩

/-- C7 amended: canvas resolution uses the background's dimensions when its
width, height and fps are all nonzero (Python-truthy), otherwise falls back to
the explicit canvas hint, and otherwise compilation fails (`none`, the raised
configuration error) — resolution is a pure read, so the composition state is
untouched by the failure. -/
theorem claim_C7_amended (c : Composition) :
    (∀ bg, c.background = some bg → bg.width ≠ 0 → bg.height ≠ 0 → bg.fps ≠ 0 →
      getCanvasSize c = some (bg.width, bg.height, bg.fps))
  ∧ (∀ bg, c.background = some bg → (bg.width = 0 ∨ bg.height = 0 ∨ bg.fps = 0) →
      getCanvasSize c = c.canvas_hint)
  ∧ (c.background = none → getCanvasSize c = c.canvas_hint)
  ∧ (getCanvasSize c = none →
      ∀ ctx encoder out tp sf, buildFfmpegArgv c ctx encoder out tp sf = none) := by
  refine ⟨?_, ?_, ?_, ?_⟩
  · intro bg hbg h1 h2 h3
    simp only [getCanvasSize, hbg]
    rw [if_pos ⟨h1, h2, h3⟩]
  · intro bg hbg hdeg
    simp only [getCanvasSize, hbg]
    rw [if_neg]
    intro ⟨h1, h2, h3⟩
    rcases hdeg with h | h | h
    · exact h1 h
    · exact h2 h
    · exact h3 h
  · intro hbg
    simp only [getCanvasSize, hbg]
  · intro hnone ctx encoder out tp sf
    simp only [buildFfmpegArgv, hnone]

/-- A composition with no background and only a canvas hint. -/
def compHintOnly : Composition :=
  { background := none, layers := [], canvas_hint := some (640, 480, 25),
    explicit_duration := none }

/-- A composition with neither background nor canvas hint. -/
def compNoCanvas : Composition :=
  { background := none, layers := [], canvas_hint := none, explicit_duration := none }

/-- The default media context used by concrete witnesses. -/
def ctx0 : MediaCtx := { ffmpeg := "ffmpeg", webm_support := true }

/-- The default h264 encoder profile (`EncoderProfile.h264()`). -/
def encH264 : EncoderProfile :=
  { kind := .h264, crf := some 18, preset := some "medium", layout := none, fps := none }

/-- Witness for C7 amended, at concrete compositions. -/
theorem claim_C7_amended_witness :
    getCanvasSize exDur3 = some (1920, 1080, 30)
  ∧ getCanvasSize compHintOnly = some (640, 480, 25)
  ∧ buildFfmpegArgv compNoCanvas ctx0 encH264 "OUT.mp4" false none = none := by
  refine ⟨?_, ?_, ?_⟩
  · exact (claim_C7_amended exDur3).1 bgColor1080 rfl (by decide) (by decide) (by decide)
  · exact (claim_C7_amended compHintOnly).2.2.1 rfl
  · exact (claim_C7_amended compNoCanvas).2.2.2 rfl ctx0 encH264 "OUT.mp4" false none

/-- A layer in exact-pixels mode 800×600. -/
def layerPx : Layer :=
  { mkLayer (fgOfDur 5) "layer0" 0 with
    size := { mode := .px, width := some 800, height := some 600, percent := none,
              scale := none } }

/-- C1 counterexample: the code's aspect-constraint table gives `decrease` —
not "no constraint" — to exact-pixels, fit-width and fit-height, and the scale
filter emitted for an 800×600 exact-pixels layer carries
`force_original_aspect_ratio=decrease`. -/
theorem claim_C1_counterexample :
    getAspectRatioConstraint SizeMode.px = some "decrease"
  ∧ getAspectRatioConstraint SizeMode.fitWidth = some "decrease"
  ∧ getAspectRatioConstraint SizeMode.fitHeight = some "decrease"
  ∧ getLayerTransformationFilters layerPx 0 "[in]" 1920 1080 =
      ["[in]scale=800:600:force_original_aspect_ratio=decrease[layer_0_scale]",
       "[layer_0_scale]null[layer_0_final]"] := by
  refine ⟨rfl, rfl, rfl, by decide⟩

/-- Helper: membership survives the final-label fixup of
`_get_layer_transformation_filters`. -/
theorem mem_finalize {α : Type} [DecidableEq α] {x : α} {fs tail : List α} (h : x ∈ fs)
    {c : Prop} [Decidable c] :
    x ∈ (if fs = [] then [] else if c then fs else fs ++ tail) := by
  split
  · rename_i hfs
    rw [hfs] at h
    cases h
  · split
    · exact h
    · exact List.mem_append_left _ h

/-- C1 amended: whenever a scale filter is emitted, its
`force_original_aspect_ratio` constraint follows the code's table — `increase`
for cover, no constraint for scale-factor, and `decrease` for contain,
canvas-percent, exact-pixels, fit-width and fit-height. -/
theorem claim_C1_amended (layer : Layer) (li : ℕ) (cur : String) (cw ch : ℤ)
    (tw th : String) (hscale : scaleTarget layer.size cw ch = some (tw, th)) :
    ∃ pre, (pre ++ "scale=" ++ tw ++ ":" ++ th ++
      (match layer.size.mode with
       | SizeMode.cover => ":force_original_aspect_ratio=increase"
       | SizeMode.scale => ""
       | _ => ":force_original_aspect_ratio=decrease") ++
      "[" ++ ("layer_" ++ toString li) ++ "_scale]") ∈
      getLayerTransformationFilters layer li cur cw ch := by
  have hsuffix : aspectSuffix layer.size.mode =
      (match layer.size.mode with
       | SizeMode.cover => ":force_original_aspect_ratio=increase"
       | SizeMode.scale => ""
       | _ => ":force_original_aspect_ratio=decrease") := by
    cases layer.size.mode <;> rfl
  refine ⟨(cropStage layer ("layer_" ++ toString li)
    (timedStage layer ("layer_" ++ toString li) cur).2).2, ?_⟩
  unfold getLayerTransformationFilters
  dsimp only
  rw [← hsuffix]
  apply mem_finalize
  refine List.mem_append_left _ (List.mem_append_left _ (List.mem_append_right _ ?_))
  simp only [scaleStage, hscale]
  exact List.mem_singleton.mpr rfl

/-- Witness for C1 amended: the exact-pixels layer at 1920×1080. -/
theorem claim_C1_amended_witness :
    ∃ pre, (pre ++ "scale=" ++ "800" ++ ":" ++ "600" ++
      (match layerPx.size.mode with
       | SizeMode.cover => ":force_original_aspect_ratio=increase"
       | SizeMode.scale => ""
       | _ => ":force_original_aspect_ratio=decrease") ++
      "[" ++ ("layer_" ++ toString 0) ++ "_scale]") ∈
      getLayerTransformationFilters layerPx 0 "[in]" 1920 1080 :=
  claim_C1_amended layerPx 0 "[in]" 1920 1080 "800" "600" (by decide)

/-! ## Audio-section accessors (naming the builder's intermediate values) -/

/-- The builder's `audio_inputs` list: foreground entries in layer order, then
the background's entry. -/
def audioInputsOf (c : Composition) (ctx : MediaCtx) : List AudioInput :=
  match collectLayerInputs c.layers ctx with
  | some (_, input_map, fgAudio) => fgAudio ++ bgAudioEntries c.background input_map
  | none => []

/-- The builder's `audio_filter_parts`. -/
def audioFilterPartsOf (c : Composition) (ctx : MediaCtx) : List String :=
  (audioSection c.layers (audioInputsOf c ctx)).1

/-- The builder's `audio_map_args`. -/
def audioMapArgsOf (c : Composition) (ctx : MediaCtx) : List String :=
  (audioSection c.layers (audioInputsOf c ctx)).2

/-- Helper: in the multiple-source branch, the entry at position `i` whose
effective layer (via the `layer_index`-or-position fallback) has a positive
composition start is routed through an `adelay` filter. -/
theorem adelay_mem_audioSection (layers : List Layer) (A : List AudioInput)
    (i li : ℕ) (e : AudioInput) (l : Layer) (s : ℚ)
    (h2 : 2 ≤ A.length) (hie : A[i]? = some e) (hli : e.layer_index.getD i = li)
    (hl : layers[li]? = some l) (hs : l.comp_start = some s) (hpos : 0 < s) :
    ("[" ++ e.input ++ "]adelay=" ++ toString (pyint (s * 1000)) ++ "|" ++
      toString (pyint (s * 1000)) ++ "[audio_delayed_" ++ toString i ++ "]")
      ∈ (audioSection layers A).1 := by
  match A, h2 with
  | a :: b :: rest, _ =>
    have hmem : (("[" ++ e.input ++ "]adelay=" ++ toString (pyint (s * 1000)) ++ "|" ++
        toString (pyint (s * 1000)) ++ "[audio_delayed_" ++ toString i ++ "]"))
        ∈ (processAudioEntry layers i e).1 := by
      unfold processAudioEntry
      rw [hli]
      dsimp only
      rw [hl]
      dsimp only
      rw [hs]
      dsimp only
      rw [if_pos hpos]
      split
      · exact List.mem_append_left _ (List.mem_cons_self _ _)
      · exact List.mem_cons_self _ _
    have henum : (i, e) ∈ (a :: b :: rest).enum :=
      List.mk_mem_enum_iff_getElem?.mpr hie
    simp only [audioSection, List.map_map]
    refine List.mem_append_left _ (List.mem_flatten_of_mem ?_ hmem)
    exact List.mem_map_of_mem _ henum

/-- `int(3.0 * 1000)` is 3000. -/
theorem pyint_3000 : pyint ((3 : ℚ) * 1000) = 3000 := by
  have h : ((3 : ℚ) * 1000) = 3000 := by norm_num
  rw [pyint, h]
  rw [if_pos (by norm_num)]
  norm_num

/-- Layer 0 of the C3 failing input: audio enabled, no composition start. -/
def bugLayer0 : Layer := mkLayer (fgOfDur 5) "layer0" 0

/-- Layer 1 of the C3 failing input: audio disabled, composition start 3.0 s. -/
def bugLayer1 : Layer :=
  { mkLayer (fgOfDur 5) "layer1" 1 with audio_enabled := false, comp_start := some 3 }

/-- The C3 failing input: a video background with enabled audio, one
audio-enabled layer, and one audio-disabled layer starting at 3.0 s. -/
def bugComp : Composition :=
  { background := some bgVideo12, layers := [bugLayer0, bugLayer1], canvas_hint := none,
    explicit_duration := none }

/-- C3: the claim (and the source's own single-source comment, "Background
audio should never be delayed") says background audio always starts at
wall-clock zero, but in the multiple-source branch the background's entry has
no `layer_index` and falls back to its list position, picking up an unrelated
layer's composition start: on `bugComp` the background stream `0:a` is routed
through `adelay=3000|3000`. -/
theorem claim_C3_background_delayed :
    (audioInputsOf bugComp ctx0)[1]? =
      some { input := "0:a", volume := 1, typ := "background", layer_index := none }
  ∧ bugComp.background = some bgVideo12 ∧ bgVideo12.audio_enabled = true
  ∧ "[0:a]adelay=3000|3000[audio_delayed_1]" ∈ audioFilterPartsOf bugComp ctx0 := by
  have hA : audioInputsOf bugComp ctx0 =
      [{ input := "1:a", volume := 1, typ := "foreground", layer_index := some 0 },
       { input := "0:a", volume := 1, typ := "background", layer_index := none }] := by
    decide
  refine ⟨by rw [hA]; rfl, rfl, rfl, ?_⟩
  have hmem := adelay_mem_audioSection bugComp.layers (audioInputsOf bugComp ctx0) 1 1
    { input := "0:a", volume := 1, typ := "background", layer_index := none }
    bugLayer1 3
    (by rw [hA]; decide) (by rw [hA]; rfl) rfl (by decide) rfl (by norm_num)
  have hstr : "[0:a]adelay=3000|3000[audio_delayed_1]" =
      "[" ++ "0:a" ++ "]adelay=" ++ toString (pyint ((3 : ℚ) * 1000)) ++ "|" ++
        toString (pyint ((3 : ℚ) * 1000)) ++ "[audio_delayed_" ++ toString 1 ++ "]" := by
    rw [pyint_3000]
    rfl
  rw [audioFilterPartsOf, hstr]
  exact hmem

/-- C4: the argument-vector builder is a pure, deterministic function of the
composition's state — background, layers, canvas hint and explicit duration —
and the encoder profile: two compositions agreeing on those four fields
compile identically, and recompiling the same composition reproduces the same
vector byte for byte. -/
theorem claim_C4_deterministic (c₁ c₂ : Composition) (ctx : MediaCtx)
    (encoder : EncoderProfile) (out : String) (tp : Bool) (sf : Option String)
    (hbg : c₁.background = c₂.background) (hl : c₁.layers = c₂.layers)
    (hh : c₁.canvas_hint = c₂.canvas_hint) (hd : c₁.explicit_duration = c₂.explicit_duration) :
    buildFfmpegArgv c₁ ctx encoder out tp sf = buildFfmpegArgv c₂ ctx encoder out tp sf
  ∧ buildFfmpegArgv c₁ ctx encoder out tp sf = buildFfmpegArgv c₁ ctx encoder out tp sf := by
  obtain ⟨bg₁, l₁, h₁, d₁⟩ := c₁
  obtain ⟨bg₂, l₂, h₂, d₂⟩ := c₂
  simp only at hbg hl hh hd
  subst hbg hl hh hd
  exact ⟨rfl, rfl⟩

/-- A composition with the same state as `exDur1`, built independently. -/
def exDur1Copy : Composition :=
  { background := some bgVideo12, layers := layersDur59, canvas_hint := none,
    explicit_duration := none }

/-- Witness for C4 at a concrete composition. -/
theorem claim_C4_deterministic_witness :
    buildFfmpegArgv exDur1 ctx0 encH264 "OUT.mp4" false none =
      buildFfmpegArgv exDur1Copy ctx0 encH264 "OUT.mp4" false none :=
  (claim_C4_deterministic exDur1 exDur1Copy ctx0 encH264 "OUT.mp4" false none
    rfl rfl rfl rfl).1

/-- Helper: in the multiple-source branch, an entry with non-unity volume is
routed through a `volume` filter. -/
theorem volume_mem_audioSection (layers : List Layer) (A : List AudioInput) (i : ℕ)
    (e : AudioInput) (h2 : 2 ≤ A.length) (hie : A[i]? = some e) (hv : e.volume ≠ 1) :
    ∃ pre, (pre ++ "volume=" ++ pystr e.volume ++ "[audio_vol_" ++ toString i ++ "]")
      ∈ (audioSection layers A).1 := by
  match A, h2 with
  | a :: b :: rest, _ =>
    have henum : (i, e) ∈ (a :: b :: rest).enum := List.mk_mem_enum_iff_getElem?.mpr hie
    have hmem : ∃ pre, (pre ++ "volume=" ++ pystr e.volume ++ "[audio_vol_" ++ toString i ++ "]")
        ∈ (processAudioEntry layers i e).1 := by
      unfold processAudioEntry
      dsimp only
      cases hget : layers[e.layer_index.getD i]? with
      | some layer =>
        dsimp only
        cases hcs : layer.comp_start with
        | some s =>
          dsimp only
          by_cases hps : 0 < s
          · rw [if_pos hps, if_pos hv]
            exact ⟨"[audio_delayed_" ++ toString i ++ "]",
              List.mem_append_right _ (List.mem_singleton.mpr rfl)⟩
          · rw [if_neg hps, if_pos hv]
            refine ⟨"[" ++ e.input ++ "]", ?_⟩
            simp
        | none =>
          dsimp only
          rw [if_pos hv]
          refine ⟨"[" ++ e.input ++ "]", ?_⟩
          simp
      | none =>
        dsimp only
        rw [if_pos hv]
        refine ⟨"[" ++ e.input ++ "]", ?_⟩
        have heq : ("[" ++ e.input ++ "]" : String) ++ "volume=" ++ pystr e.volume ++
            "[audio_vol_" ++ toString i ++ "]" =
            "[" ++ e.input ++ "]volume=" ++ pystr e.volume ++ "[audio_vol_" ++
              toString i ++ "]" := by
          rw [String.append_assoc ("[" ++ e.input) "]" "volume=",
            (show ("]" : String) ++ "volume=" = "]volume=" from rfl)]
        rw [heq]
        simp
    obtain ⟨pre, hpre⟩ := hmem
    refine ⟨pre, ?_⟩
    simp only [audioSection, List.map_map]
    refine List.mem_append_left _ (List.mem_flatten_of_mem ?_ hpre)
    exact List.mem_map_of_mem _ henum

/-- C5: with two or more enabled audio sources, every source whose effective
layer has a positive composition start is delayed by that start in integer
milliseconds, every source with non-unity volume gets a volume filter, all
processed sources feed one `amix` filter with `duration=longest` whose input
count is the source count, and the audio map names the mixed pad `[audio_out]`
— never a source pad; with zero sources the map argument is the `-an` no-audio
flag and no audio filter (hence no mix filter) is emitted. -/
theorem claim_C5_audio_graph (c : Composition) (ctx : MediaCtx) :
    (2 ≤ (audioInputsOf c ctx).length →
      (∀ (i li : ℕ) (e : AudioInput) (l : Layer) (s : ℚ),
        (audioInputsOf c ctx)[i]? = some e → e.layer_index = some li →
        c.layers[li]? = some l → l.comp_start = some s → 0 < s →
        ("[" ++ e.input ++ "]adelay=" ++ toString (pyint (s * 1000)) ++ "|" ++
          toString (pyint (s * 1000)) ++ "[audio_delayed_" ++ toString i ++ "]")
          ∈ audioFilterPartsOf c ctx)
    ∧ (∀ (i : ℕ) (e : AudioInput), (audioInputsOf c ctx)[i]? = some e → e.volume ≠ 1 →
        ∃ pre, (pre ++ "volume=" ++ pystr e.volume ++ "[audio_vol_" ++ toString i ++ "]")
          ∈ audioFilterPartsOf c ctx)
    ∧ (joinAll (((audioInputsOf c ctx).enum.map
          (fun p => processAudioEntry c.layers p.1 p.2)).map (fun q => q.2)) ++
        "amix=inputs=" ++ toString (audioInputsOf c ctx).length ++
        ":duration=longest[audio_out]") ∈ audioFilterPartsOf c ctx
    ∧ audioMapArgsOf c ctx = ["-map", "[audio_out]"])
  ∧ ((audioInputsOf c ctx).length = 0 →
      audioFilterPartsOf c ctx = [] ∧ audioMapArgsOf c ctx = ["-an"]) := by
  constructor
  · intro h2
    refine ⟨?_, ?_, ?_, ?_⟩
    · intro i li e l s hie hli hl hs hpos
      exact adelay_mem_audioSection c.layers _ i li e l s h2 hie (by rw [hli]; rfl)
        hl hs hpos
    · intro i e hie hv
      exact volume_mem_audioSection c.layers _ i e h2 hie hv
    · rcases hA : audioInputsOf c ctx with _ | ⟨a, _ | ⟨b, rest⟩⟩
      · rw [hA] at h2; exact absurd h2 (by simp)
      · rw [hA] at h2; exact absurd h2 (by simp)
      · rw [audioFilterPartsOf, hA]
        simp only [audioSection]
        refine List.mem_append_right _ ?_
        have hlen : ((((a :: b :: rest).enum.map
            (fun p => processAudioEntry c.layers p.1 p.2)).map (fun q => q.2))).length =
            (a :: b :: rest).length := by
          simp [List.length_map, List.enum_length]
        exact List.mem_singleton.mpr (by rw [hlen])
    · rcases hA : audioInputsOf c ctx with _ | ⟨a, _ | ⟨b, rest⟩⟩
      · rw [hA] at h2; exact absurd h2 (by simp)
      · rw [hA] at h2; exact absurd h2 (by simp)
      · rw [audioMapArgsOf, hA]
        rfl
  · intro h0
    have hA : audioInputsOf c ctx = [] := List.length_eq_zero.mp h0
    rw [audioFilterPartsOf, audioMapArgsOf, hA]
    exact ⟨rfl, rfl⟩

/-- Layer 1 of the C5 witness composition: audio on, start 3.0 s, volume 0. -/
def mixLayer1 : Layer :=
  { mkLayer (fgOfDur 5) "layer1" 1 with comp_start := some 3, audio_volume := 0 }

/-- A composition with two enabled foreground audio sources over a color
background. -/
def mixComp : Composition :=
  { background := some bgColor1080, layers := [mkLayer (fgOfDur 5) "layer0" 0, mixLayer1],
    canvas_hint := none, explicit_duration := none }

/-- Witness for C5: the two-source composition `mixComp` (delay and volume on
entry 1, amix and map) and the zero-source composition `compHintOnly`. -/
theorem claim_C5_audio_graph_witness :
    ("[" ++ "2:a" ++ "]adelay=" ++ toString (pyint ((3 : ℚ) * 1000)) ++ "|" ++
      toString (pyint ((3 : ℚ) * 1000)) ++ "[audio_delayed_" ++ toString 1 ++ "]")
      ∈ audioFilterPartsOf mixComp ctx0
  ∧ (∃ pre, (pre ++ "volume=" ++ pystr (0 : ℚ) ++ "[audio_vol_" ++ toString 1 ++ "]")
      ∈ audioFilterPartsOf mixComp ctx0)
  ∧ audioMapArgsOf mixComp ctx0 = ["-map", "[audio_out]"]
  ∧ audioFilterPartsOf compHintOnly ctx0 = []
  ∧ audioMapArgsOf compHintOnly ctx0 = ["-an"] := by
  have hA : audioInputsOf mixComp ctx0 =
      [{ input := "1:a", volume := 1, typ := "foreground", layer_index := some 0 },
       { input := "2:a", volume := 0, typ := "foreground", layer_index := some 1 }] := by
    decide
  have h2 : 2 ≤ (audioInputsOf mixComp ctx0).length := by rw [hA]; decide
  have h5 := claim_C5_audio_graph mixComp ctx0
  have h5z := claim_C5_audio_graph compHintOnly ctx0
  refine ⟨?_, ?_, ((h5.1 h2).2.2.2), (h5z.2 (by decide)).1, (h5z.2 (by decide)).2⟩
  · exact (h5.1 h2).1 1 1
      { input := "2:a", volume := 0, typ := "foreground", layer_index := some 1 }
      mixLayer1 3 (by rw [hA]; rfl) rfl rfl rfl (by norm_num)
  · exact (h5.1 h2).2.1 1
      { input := "2:a", volume := 0, typ := "foreground", layer_index := some 1 }
      (by rw [hA]; rfl) (by norm_num)

/-! ## The three layer fields never read by the builder (claims C9 and C10)

`scrub` erases exactly `source_trim`, `comp_end` and `comp_duration` from a
layer record; every builder component is invariant under it, which is the
formal content of "layer-level source trims and end/duration timing never
reach the argument vector".  (`getOverlayTimingEnable`, the only function
that would consume `comp_end`/`comp_duration`, is referenced by no builder
definition.) -/

/-- Erase the three layer fields the compiler never reads. -/
def scrub (l : Layer) : Layer :=
  { l with source_trim := none, comp_end := none, comp_duration := none }

/-- `scrub` lifted to enumerated layers. -/
def scrubP (p : ℕ × Layer) : ℕ × Layer := (p.1, scrub p.2)

theorem collectAux_scrub (ctx : MediaCtx) :
    ∀ (ls : List Layer) (i : ℕ) (m : List (String × ℕ)) (args : List String)
      (audio : List AudioInput),
      collectAux ctx (ls.map scrub) i m args audio = collectAux ctx ls i m args audio := by
  intro ls
  induction ls with
  | nil => intro i m args audio; rfl
  | cons l rest ih =>
    intro i m args audio
    simp only [List.map_cons, collectAux, scrub]
    cases l.fg.getFfmpegInputs (maxValues m + 1) i ctx (getSourceTrimArgs l.fg) [] with
    | none => rfl
    | some v =>
      obtain ⟨fargs, updates, audioKey⟩ := v
      exact ih (i + 1) _ _ _

theorem enumFrom_map_scrub (ls : List Layer) :
    ∀ n : ℕ, List.enumFrom n (ls.map scrub) = (List.enumFrom n ls).map scrubP := by
  induction ls with
  | nil => intro n; rfl
  | cons l rest ih =>
    intro n
    simp only [List.map_cons, List.enumFrom]
    rw [ih (n + 1)]
    rfl

theorem insertZ_map_scrub (x : ℕ × Layer) :
    ∀ s : List (ℕ × Layer), insertZ (scrubP x) (s.map scrubP) = (insertZ x s).map scrubP := by
  intro s
  induction s with
  | nil => rfl
  | cons y ys ih =>
    simp only [List.map_cons, insertZ]
    dsimp only [scrubP, scrub]
    by_cases h : y.2.z ≤ x.2.z
    · rw [if_pos h, if_pos h]
      dsimp only [scrubP, scrub] at ih
      rw [ih]
      rfl
    · rw [if_neg h, if_neg h]
      rfl

theorem sortFold_map_scrub :
    ∀ (s acc : List (ℕ × Layer)),
      (s.map scrubP).foldl (fun acc x => insertZ x acc) (acc.map scrubP) =
        (s.foldl (fun acc x => insertZ x acc) acc).map scrubP := by
  intro s
  induction s with
  | nil => intro acc; rfl
  | cons x xs ih =>
    intro acc
    simp only [List.map_cons, List.foldl_cons]
    rw [insertZ_map_scrub x acc]
    exact ih (insertZ x acc)

theorem sortLayersByZ_map_scrub (ls : List Layer) :
    sortLayersByZ ((ls.map scrub).enum) = (sortLayersByZ ls.enum).map scrubP := by
  unfold sortLayersByZ
  rw [show (ls.map scrub).enum = (ls.enum).map scrubP from enumFrom_map_scrub ls 0]
  exact sortFold_map_scrub ls.enum []

theorem videoGraphAux_map_scrub (im : List (String × ℕ)) (cw ch : ℤ) :
    ∀ (s : List (ℕ × Layer)) (pos total : ℕ) (cur : String) (acc : List String),
      videoGraphAux im cw ch (s.map scrubP) pos total cur acc =
        videoGraphAux im cw ch s pos total cur acc := by
  intro s
  induction s with
  | nil => intros; rfl
  | cons p rest ih =>
    intro pos total cur acc
    obtain ⟨oi, layer⟩ := p
    simp only [List.map_cons, scrubP, videoGraphAux, scrub]
    cases layer.fg.getFfmpegFilters ("layer_" ++ toString oi) im layer.alpha_enabled with
    | none => rfl
    | some ff =>
      dsimp only
      cases (if ff ≠ [] then
          layer.fg.getCurrentInputLabel ("layer_" ++ toString oi) layer.alpha_enabled
        else
          some ("[" ++ toString (dictGetD im ("layer_" ++ toString oi) 0) ++ ":v]")) with
      | none => rfl
      | some lo =>
        dsimp only
        split
        · exact ih (pos + 1) total cur _
        · exact ih (pos + 1) total _ _

theorem videoGraph_map_scrub (ls : List Layer) (im : List (String × ℕ)) (cw ch : ℤ) :
    videoGraph (ls.map scrub) im cw ch = videoGraph ls im cw ch := by
  unfold videoGraph
  rw [sortLayersByZ_map_scrub]
  dsimp only
  rw [List.length_map]
  exact videoGraphAux_map_scrub im cw ch _ 0 _ _ []

theorem processAudioEntry_map_scrub (ls : List Layer) (i : ℕ) (e : AudioInput) :
    processAudioEntry (ls.map scrub) i e = processAudioEntry ls i e := by
  unfold processAudioEntry
  dsimp only
  rw [List.getElem?_map]
  cases ls[e.layer_index.getD i]? with
  | none => rfl
  | some layer => rfl

theorem audioSection_map_scrub (ls : List Layer) (A : List AudioInput) :
    audioSection (ls.map scrub) A = audioSection ls A := by
  match A with
  | [] => rfl
  | [a] =>
    unfold audioSection
    dsimp only
    rw [List.getElem?_map]
    cases ls[a.layer_index.getD 0]? with
    | none => rfl
    | some layer => rfl
  | a :: b :: rest =>
    unfold audioSection
    simp only [processAudioEntry_map_scrub]

theorem foldl_longestStep_map_scrub (ls : List Layer) :
    ∀ acc : ℚ, (ls.map scrub).foldl longestStep acc = ls.foldl longestStep acc := by
  induction ls with
  | nil => intro acc; rfl
  | cons l rest ih =>
    intro acc
    simp only [List.map_cons, List.foldl_cons]
    rw [show longestStep acc (scrub l) = longestStep acc l from rfl]
    exact ih _

theorem getCompositionDuration_scrub (bg : Option Background) (ls : List Layer)
    (hint : Option (ℤ × ℤ × ℚ)) (dur : Option ℚ) :
    getCompositionDuration ⟨bg, ls.map scrub, hint, dur⟩ =
      getCompositionDuration ⟨bg, ls, hint, dur⟩ := by
  unfold getCompositionDuration getLongestForegroundDuration
  dsimp only
  rw [foldl_longestStep_map_scrub]

theorem durationArgs_scrub (bg : Option Background) (ls : List Layer)
    (hint : Option (ℤ × ℤ × ℚ)) (dur : Option ℚ) :
    durationArgs ⟨bg, ls.map scrub, hint, dur⟩ = durationArgs ⟨bg, ls, hint, dur⟩ := by
  unfold durationArgs
  rw [getCompositionDuration_scrub]

theorem buildFfmpegArgv_scrub (bg : Option Background) (ls : List Layer)
    (hint : Option (ℤ × ℤ × ℚ)) (dur : Option ℚ) (ctx : MediaCtx)
    (encoder : EncoderProfile) (out : String) (tp : Bool) (sf : Option String) :
    buildFfmpegArgv ⟨bg, ls.map scrub, hint, dur⟩ ctx encoder out tp sf =
      buildFfmpegArgv ⟨bg, ls, hint, dur⟩ ctx encoder out tp sf := by
  unfold buildFfmpegArgv
  dsimp only
  rw [show getCanvasSize ⟨bg, ls.map scrub, hint, dur⟩ =
    getCanvasSize ⟨bg, ls, hint, dur⟩ from rfl]
  cases getCanvasSize ⟨bg, ls, hint, dur⟩ with
  | none => rfl
  | some t =>
    obtain ⟨cw, ch, cfps⟩ := t
    dsimp only
    rw [show collectLayerInputs (ls.map scrub) ctx = collectLayerInputs ls ctx from
      collectAux_scrub ctx ls 0 [("background", 0)] [] []]
    cases collectLayerInputs ls ctx with
    | none => rfl
    | some tup =>
      obtain ⟨layerArgs, input_map, fgAudio⟩ := tup
      dsimp only
      rw [videoGraph_map_scrub]
      cases videoGraph ls input_map cw ch with
      | none => rfl
      | some vparts =>
        dsimp only
        rw [audioSection_map_scrub, durationArgs_scrub]

/-- In-place update of the `i`-th layer (the mutation performed through a
`LayerHandle`). -/
def modifyNth (f : Layer → Layer) : ℕ → List Layer → List Layer
  | _, [] => []
  | 0, l :: rest => f l :: rest
  | n + 1, l :: rest => l :: modifyNth f n rest

theorem map_scrub_modifyNth (f : Layer → Layer) (hf : ∀ l, scrub (f l) = scrub l) :
    ∀ (n : ℕ) (ls : List Layer), (modifyNth f n ls).map scrub = ls.map scrub := by
  intro n ls
  induction ls generalizing n with
  | nil => cases n <;> rfl
  | cons l rest ih =>
    cases n with
    | zero => simp only [modifyNth, List.map_cons, hf l]
    | succ m => simp only [modifyNth, List.map_cons, ih m]

/-- C9: setting a layer record's `source_trim` (what `LayerHandle.subclip`
does) never changes the compiled argument vector — input-trim arguments come
only from the Foreground's own `source_trim` field. -/
theorem claim_C9_layer_subclip_no_effect (c : Composition) (i : ℕ)
    (t : Option (ℚ × Option ℚ)) (ctx : MediaCtx) (encoder : EncoderProfile)
    (out : String) (tp : Bool) (sf : Option String) :
    buildFfmpegArgv
        { c with layers := modifyNth (fun l => { l with source_trim := t }) i c.layers }
        ctx encoder out tp sf
      = buildFfmpegArgv c ctx encoder out tp sf := by
  obtain ⟨bg, ls, hint, dur⟩ := c
  dsimp only
  have h1 := (buildFfmpegArgv_scrub bg
    (modifyNth (fun l => { l with source_trim := t }) i ls) hint dur ctx encoder
    out tp sf).symm
  have h2 : (modifyNth (fun l => { l with source_trim := t }) i ls).map scrub =
      ls.map scrub :=
    map_scrub_modifyNth (fun l => { l with source_trim := t }) (fun l => rfl) i ls
  rw [h1, h2, buildFfmpegArgv_scrub]

/-- C10: setting a layer record's `comp_end` or `comp_duration` (what
`LayerHandle.end` / `LayerHandle.duration` do) never changes the compiled
argument vector; among the three timing fields only `comp_start` feeds the
output (timestamp shift and audio delay), and `getOverlayTimingEnable` — the
only consumer of end/duration — is referenced by no builder definition. -/
theorem claim_C10_end_duration_no_effect (c : Composition) (i : ℕ)
    (e? d? : Option ℚ) (ctx : MediaCtx) (encoder : EncoderProfile)
    (out : String) (tp : Bool) (sf : Option String) :
    buildFfmpegArgv
        { c with layers :=
            modifyNth (fun l => { l with comp_end := e?, comp_duration := d? }) i c.layers }
        ctx encoder out tp sf
      = buildFfmpegArgv c ctx encoder out tp sf := by
  obtain ⟨bg, ls, hint, dur⟩ := c
  dsimp only
  have h1 := (buildFfmpegArgv_scrub bg
    (modifyNth (fun l => { l with comp_end := e?, comp_duration := d? }) i ls) hint dur
    ctx encoder out tp sf).symm
  have h2 : (modifyNth (fun l => { l with comp_end := e?, comp_duration := d? }) i ls).map
      scrub = ls.map scrub :=
    map_scrub_modifyNth (fun l => { l with comp_end := e?, comp_duration := d? })
      (fun l => rfl) i ls
  rw [h1, h2, buildFfmpegArgv_scrub]

end VBR
